import Mathlib

/-!
Verification development for the VRPTW ablation dashboard data loader
(`src/data_loader.py`).  The Python source is shallowly embedded below:
strings are lists of characters, JSON documents are an inductive `Json`
type, pandas tables are structures of per-column lists, missing values
(NaN/None) are `Option.none`, and a Python exception is modelled by an
`Option`-valued function returning `none`.  Floating point numbers are
modelled by exact rationals; no claim examined here depends on rounding.
-/

namespace Abl

/-! ## Character and list utilities modelling Python string primitives -/

/-- Word character in the sense of the `re` module word boundary `\b`
(ASCII fragment: letter, digit or underscore; the source only feeds
ASCII JSON text through these regexes). -/
def isWordChar (c : Char) : Bool :=
  c.isAlpha || c.isDigit || c = '_'

/-- Wordness of an optional character; the position before the start or
after the end of the string counts as non-word. -/
def wordO : Option Char → Bool
  | none => false
  | some c => isWordChar c

/-- Regex word boundary `\b` between two adjacent positions: exactly one
side is a word character. -/
def bdryB (a b : Option Char) : Bool :=
  wordO a != wordO b

/-- List version of `str.startswith` (first argument is the prefix). -/
def startsWithL : List Char → List Char → Bool
  | [], _ => true
  | _ :: _, [] => false
  | p :: ps, c :: cs => p = c && startsWithL ps cs

/-- Drop a literal prefix, returning the remainder when it matches. -/
def dropPrefixL : List Char → List Char → Option (List Char)
  | [], s => some s
  | _ :: _, [] => none
  | p :: ps, c :: cs => if p = c then dropPrefixL ps cs else none

/-- List version of `str.endswith` (first argument is the suffix). -/
def endsWithL (suf s : List Char) : Bool :=
  startsWithL suf.reverse s.reverse

/-- Substring containment, modelling the Python `in` operator on strings
for a non-empty pattern. -/
def containsL (pat : List Char) : List Char → Bool
  | [] => pat.isEmpty
  | c :: cs => startsWithL pat (c :: cs) || containsL pat cs

/-- Fuel-driven worker for `str.replace`: leftmost non-overlapping
occurrences of `old` are replaced by `new`.  The fuel is instantiated
with the length of the subject string, which each step consumes. -/
def replaceFuel (old new : List Char) : Nat → List Char → List Char
  | 0, s => s
  | _ + 1, [] => []
  | fuel + 1, c :: cs =>
    if !old.isEmpty && startsWithL old (c :: cs) then
      new ++ replaceFuel old new fuel ((c :: cs).drop old.length)
    else
      c :: replaceFuel old new fuel cs

/-- Model of Python `str.replace(old, new)` for non-empty `old`. -/
def pyReplace (s old new : List Char) : List Char :=
  replaceFuel old new s.length s

/-! ## The token rewriting passes of `parse_custom_json`

Each `re.sub` pass scans the subject left to right; at each position it
attempts the pattern, and on success emits `null` and resumes after the
matched text.  Matching is performed against the original characters, so
the boundary context carried along is the character preceding the current
position in the subject of this pass. -/

/-- Attempt to match one literal token bracketed by `\b` boundaries at the
head of `s`, where `prev` is the character before the current position.
Returns the last matched character together with the rest of the input. -/
def tmToken (tok : List Char) (prev : Option Char) (s : List Char) :
    Option (Char × List Char) :=
  match dropPrefixL tok s with
  | none => none
  | some rest =>
    if bdryB prev tok.head? && bdryB tok.getLast? rest.head? then
      some (tok.getLast?.getD ' ', rest)
    else
      none

/-- Matcher for the pattern `\b-?Inf\b`: the greedy optional sign is
tried first, then the engine backtracks to the bare token. -/
def tmOptNegInf (prev : Option Char) (s : List Char) :
    Option (Char × List Char) :=
  match tmToken ['-', 'I', 'n', 'f'] prev s with
  | some r => some r
  | none => tmToken ['I', 'n', 'f'] prev s

/-- One `re.sub(pattern, "null", s)` pass, driven by a matcher for the
pattern and fuel instantiated with the length of the subject. -/
def subPass (tm : Option Char → List Char → Option (Char × List Char)) :
    Nat → Option Char → List Char → List Char
  | 0, _, s => s
  | _ + 1, _, [] => []
  | fuel + 1, prev, c :: cs =>
    match tm prev (c :: cs) with
    | some (lastc, rest) =>
      'n' :: 'u' :: 'l' :: 'l' :: subPass tm fuel (some lastc) rest
    | none => c :: subPass tm fuel (some c) cs

/-- Run one substitution pass over a whole string. -/
def runSub (tm : Option Char → List Char → Option (Char × List Char))
    (s : List Char) : List Char :=
  subPass tm s.length none s

/-- The four rewriting passes of `parse_custom_json`, in source order:
`\bNaN\b`, `\bInfinity\b`, `\b-Infinity\b`, `\b-?Inf\b`, each replaced
by the literal `null`. -/
def pyFixTokens (s : List Char) : List Char :=
  runSub tmOptNegInf
    (runSub (tmToken ['-', 'I', 'n', 'f', 'i', 'n', 'i', 't', 'y'])
      (runSub (tmToken ['I', 'n', 'f', 'i', 'n', 'i', 't', 'y'])
        (runSub (tmToken ['N', 'a', 'N']) s)))

/-! ## Model of `json.loads`

Parsed JSON values.  The Python decoder accepts the non-standard
constants `NaN`, `Infinity` and `-Infinity`; they are kept as dedicated
constructors since the rationals carry no such points.  Numbers are
modelled exactly by rationals (the source only ever compares, sums and
tabulates them). -/
inductive Json where
  | null
  | bool (b : Bool)
  | num (q : ℚ)
  | nan
  | inf
  | ninf
  | str (s : List Char)
  | arr (elems : List Json)
  | obj (fields : List (List Char × Json))

/-- JSON whitespace recognised by the decoder. -/
def isJsonWs (c : Char) : Bool :=
  c = ' ' || c = '\t' || c = '\n' || c = '\r'

/-- Skip leading JSON whitespace. -/
def skipWs : List Char → List Char
  | [] => []
  | c :: cs => if isJsonWs c then skipWs cs else c :: cs

/-- Split off a leading run of decimal digits. -/
def spanDigits : List Char → List Char × List Char
  | [] => ([], [])
  | c :: cs =>
    if c.isDigit then
      let (d, r) := spanDigits cs
      (c :: d, r)
    else ([], c :: cs)

/-- Numeric value of a digit string. -/
def natOfDigits (l : List Char) : Nat :=
  l.foldl (fun a c => a * 10 + (c.toNat - 48)) 0

/-- Fraction and exponent tail of the decoder number regex
`(-?(?:0|[1-9]\d*))(\.\d+)?([eE][-+]?\d+)?`; a dot or exponent marker
not followed by a digit is left unconsumed, exactly as an unmatched
optional regex group would be. -/
def parseFracExp (neg : Bool) (ip : Nat) (s : List Char) : ℚ × List Char :=
  let (fq, s2) : ℚ × List Char :=
    match s with
    | '.' :: rest =>
      match spanDigits rest with
      | ([], _) => ((ip : ℚ), s)
      | (ds, r) => ((ip : ℚ) + (natOfDigits ds : ℚ) / ((10 : ℚ) ^ ds.length), r)
    | _ => ((ip : ℚ), s)
  let (q3, s3) : ℚ × List Char :=
    match s2 with
    | e :: rest =>
      if e = 'e' || e = 'E' then
        let (eneg, rest2) :=
          match rest with
          | '+' :: r => (false, r)
          | '-' :: r => (true, r)
          | _ => (false, rest)
        match spanDigits rest2 with
        | ([], _) => (fq, s2)
        | (ds, r) =>
          let m := natOfDigits ds
          (if eneg then fq / (10 : ℚ) ^ m else fq * (10 : ℚ) ^ m, r)
      else (fq, s2)
    | [] => (fq, s2)
  (if neg then -q3 else q3, s3)

/-- Leading number match of the decoder: optional sign, then either a
lone `0` or a nonzero digit run, then fraction and exponent tails. -/
def parseNumber (s : List Char) : Option (ℚ × List Char) :=
  let (neg, s1) : Bool × List Char :=
    match s with
    | '-' :: rest => (true, rest)
    | _ => (false, s)
  match s1 with
  | '0' :: rest => some (parseFracExp neg 0 rest)
  | c :: _ =>
    if c.isDigit then
      let (ds, rest) := spanDigits s1
      some (parseFracExp neg (natOfDigits ds) rest)
    else none
  | [] => none

/-- Value of a hexadecimal digit. -/
def hexVal (c : Char) : Option Nat :=
  if c.isDigit then some (c.toNat - 48)
  else if 'a' ≤ c && c ≤ 'f' then some (c.toNat - 87)
  else if 'A' ≤ c && c ≤ 'F' then some (c.toNat - 55)
  else none

/-- String body parser, positioned after the opening quote; returns the
decoded content and the input after the closing quote.  Escapes are
decoded per the strict decoder; unescaped control characters are
rejected.  Surrogate-pair combination of `\uXXXX` escapes is not
modelled (no analysed input contains one). -/
def parseStringRest : Nat → List Char → Option (List Char × List Char)
  | 0, _ => none
  | _ + 1, [] => none
  | fuel + 1, c :: cs =>
    if c = '"' then some ([], cs)
    else if c = '\\' then
      match cs with
      | [] => none
      | e :: cs2 =>
        let esc : Option (Char × List Char) :=
          if e = '"' then some ('"', cs2)
          else if e = '\\' then some ('\\', cs2)
          else if e = '/' then some ('/', cs2)
          else if e = 'b' then some (Char.ofNat 8, cs2)
          else if e = 'f' then some (Char.ofNat 12, cs2)
          else if e = 'n' then some ('\n', cs2)
          else if e = 'r' then some ('\r', cs2)
          else if e = 't' then some ('\t', cs2)
          else if e = 'u' then
            match cs2 with
            | h1 :: h2 :: h3 :: h4 :: cs3 =>
              match hexVal h1, hexVal h2, hexVal h3, hexVal h4 with
              | some a, some b, some c2, some d =>
                some (Char.ofNat (((a * 16 + b) * 16 + c2) * 16 + d), cs3)
              | _, _, _, _ => none
            | _ => none
          else none
        match esc with
        | none => none
        | some (ch, cs3) =>
          match parseStringRest fuel cs3 with
          | none => none
          | some (content, r) => some (ch :: content, r)
    else if c.toNat < 32 then none
    else
      match parseStringRest fuel cs with
      | none => none
      | some (content, r) => some (c :: content, r)

mutual

/-- Value dispatch of the decoder at the current position (no leading
whitespace skip, matching `scan_once`): string, object, array, the
literals, then the number regex, then the non-standard constants. -/
def parseValue : Nat → List Char → Option (Json × List Char)
  | 0, _ => none
  | fuel + 1, s =>
    match s with
    | [] => none
    | c :: cs =>
      if c = '"' then
        match parseStringRest cs.length cs with
        | some (content, r) => some (.str content, r)
        | none => none
      else if c = '{' then
        match parseObjectFields fuel (skipWs cs) with
        | some (kvs, r) => some (.obj kvs, r)
        | none => none
      else if c = '[' then
        match parseArrayElems fuel (skipWs cs) with
        | some (vs, r) => some (.arr vs, r)
        | none => none
      else if startsWithL ['n', 'u', 'l', 'l'] s then some (.null, s.drop 4)
      else if startsWithL ['t', 'r', 'u', 'e'] s then some (.bool true, s.drop 4)
      else if startsWithL ['f', 'a', 'l', 's', 'e'] s then some (.bool false, s.drop 5)
      else
        match parseNumber s with
        | some (q, r) => some (.num q, r)
        | none =>
          if startsWithL ['N', 'a', 'N'] s then some (.nan, s.drop 3)
          else if startsWithL ['I', 'n', 'f', 'i', 'n', 'i', 't', 'y'] s then
            some (.inf, s.drop 8)
          else if startsWithL ['-', 'I', 'n', 'f', 'i', 'n', 'i', 't', 'y'] s then
            some (.ninf, s.drop 9)
          else none

/-- Array elements, positioned after `[` and leading whitespace. -/
def parseArrayElems : Nat → List Char → Option (List Json × List Char)
  | 0, _ => none
  | fuel + 1, s =>
    match s with
    | ']' :: r => some ([], r)
    | _ => parseArrayLoop fuel s

/-- Array element loop: value, whitespace, then `]` or `,`. -/
def parseArrayLoop : Nat → List Char → Option (List Json × List Char)
  | 0, _ => none
  | fuel + 1, s =>
    match parseValue fuel s with
    | none => none
    | some (v, r) =>
      match skipWs r with
      | ']' :: r3 => some ([v], r3)
      | ',' :: r3 =>
        match parseArrayLoop fuel (skipWs r3) with
        | none => none
        | some (vs, r4) => some (v :: vs, r4)
      | _ => none

/-- Object members, positioned after `{` and leading whitespace. -/
def parseObjectFields : Nat → List Char →
    Option (List (List Char × Json) × List Char)
  | 0, _ => none
  | fuel + 1, s =>
    match s with
    | '}' :: r => some ([], r)
    | _ => parseObjectLoop fuel s

/-- Object member loop: quoted key, colon, value, then `}` or `,`. -/
def parseObjectLoop : Nat → List Char →
    Option (List (List Char × Json) × List Char)
  | 0, _ => none
  | fuel + 1, s =>
    match s with
    | '"' :: cs =>
      match parseStringRest cs.length cs with
      | none => none
      | some (key, r1) =>
        match skipWs r1 with
        | ':' :: r2 =>
          match parseValue fuel (skipWs r2) with
          | none => none
          | some (v, r3) =>
            match skipWs r3 with
            | '}' :: r4 => some ([(key, v)], r4)
            | ',' :: r4 =>
              match parseObjectLoop fuel (skipWs r4) with
              | none => none
              | some (kvs, r5) => some ((key, v) :: kvs, r5)
            | _ => none
        | _ => none
    | _ => none

end

/-- Model of `json.loads`: skip whitespace, parse one value, require
only whitespace to remain.  The fuel bound strictly dominates the
number of parsing steps for the inputs evaluated here. -/
def json_loads (s : List Char) : Option Json :=
  match parseValue (2 * s.length + 4) (skipWs s) with
  | none => none
  | some (v, rest) => if (skipWs rest).isEmpty then some v else none

/-- Model of `parse_custom_json` (src/data_loader.py lines 15-27): the
four token rewriting passes followed by `json.loads`; a parse failure is
the `none` outcome, modelling the raised `ValueError`. -/
def parse_custom_json (s : List Char) : Option Json :=
  json_loads (pyFixTokens s)

/-! ## Instance name normalization (`extract_instance_name`, lines 43-65) -/

/-- Strip one trailing `.txt` or `.json` extension, the effect of
`re.sub(r'\.(txt|json)$', '', filename)`. -/
def stripExt (s : List Char) : List Char :=
  if endsWithL ('.' :: ['t', 'x', 't']) s then s.dropLast.dropLast.dropLast.dropLast
  else if endsWithL ('.' :: ['j', 's', 'o', 'n']) s then
    (((s.dropLast.dropLast).dropLast).dropLast).dropLast
  else s

/-- Character level model of `extract_instance_name`: extension strip,
then the three special cases in source order, else the base name. -/
def extractInstanceL (filename : List Char) : List Char :=
  let base := stripExt filename
  if startsWithL ("BACK_jy_".data) base then
    pyReplace base ("BACK_jy_".data) [] ++ ("_BACK".data)
  else if endsWithL ("_better".data) base then
    pyReplace (pyReplace base ("jy_".data) []) ("_better".data) [] ++ ("_better".data)
  else if startsWithL ("jy_".data) base then
    pyReplace base ("jy_".data) []
  else base

/-- Model of `extract_instance_name` on strings. -/
def extract_instance_name (filename : String) : String :=
  ⟨extractInstanceL filename.data⟩

/-! ## The run document data model

Fields of the parsed run document that the loader reads.  Arrays are
optional (the key may be absent); their entries are `none` for a JSON
null (the tolerant parser maps `NaN` and friends to null, and `json`
maps null to Python `None`, which pandas stores as a missing value) and
otherwise a number or boolean.  A key holding a non-sequence value is
outside this model; the specification types these fields as sequences. -/

/-- Scalar JSON payloads appearing inside the arrays of a run document. -/
inductive JScalar where
  | num (q : ℚ)
  | bool (b : Bool)
  deriving DecidableEq

/-- One tabular cell: `none` is a missing value (NaN/None). -/
abbrev Cell := Option JScalar

/-- Element of a problem-size stage array: a dict with optional
`timeGraph` and `ngGraph` keys, or a non-dict element. -/
inductive StageItem where
  | dict (timeGraph ngGraph : Option Cell)
  | nondict
  deriving DecidableEq

/-- Element of `cuttingPlaneBendInfo`: a dict with four optional cut
statistic keys, or a non-dict element. -/
inductive CutItem where
  | dict (tot_cut_value TOT_gen_cut tot_time_opt max_time_opt : Option Cell)
  | nondict
  deriving DecidableEq

/-- The parsed JSON object for one solver run, restricted to the keys
the loader reads.  `hasOtherKeys` records whether the dict holds any
key besides the modelled ones, so that Python dict truthiness
(`if not data`) is representable. -/
structure RawRunDocument where
  lblp_lower : Option (List Cell) := none
  ub_lp : Option (List Cell) := none
  did_compress : Option (List Cell) := none
  lp_time_project : Option (List Cell) := none
  lp_time_LB : Option (List Cell) := none
  time_compress : Option (List Cell) := none
  prob_sizes_at_start : Option (List StageItem) := none
  prob_sizes_after_compress : Option (List StageItem) := none
  prob_sizes_after_split : Option (List StageItem) := none
  cuttingPlaneBendInfo : Option (List CutItem) := none
  ROOT_LP_PRIOR_ADDING_CUTS : Option Cell := none
  OUR_ilp_objective : Option Cell := none
  OUR_ilp_time : Option Cell := none
  hasOtherKeys : Bool := false
  deriving DecidableEq

/-- Python truthiness of the document dict: it has at least one key. -/
def RawRunDocument.truthy (d : RawRunDocument) : Bool :=
  d.lblp_lower.isSome || d.ub_lp.isSome || d.did_compress.isSome ||
  d.lp_time_project.isSome || d.lp_time_LB.isSome || d.time_compress.isSome ||
  d.prob_sizes_at_start.isSome || d.prob_sizes_after_compress.isSome ||
  d.prob_sizes_after_split.isSome || d.cuttingPlaneBendInfo.isSome ||
  d.ROOT_LP_PRIOR_ADDING_CUTS.isSome || d.OUR_ilp_objective.isSome ||
  d.OUR_ilp_time.isSome || d.hasOtherKeys

/-! ## The iteration table (`process_iteration_data`, lines 68-168) -/

/-- The per-iteration table, one list per column; all columns of a
non-empty table have the row count as length. -/
structure IterTable where
  iteration : List Nat
  lblp_lower : List Cell
  ub_lp : List Cell
  did_compress : List Cell
  lp_time_project : List Cell
  lp_time_LB : List Cell
  time_compress : List Cell
  start_timeGraph : List Cell
  start_ngGraph : List Cell
  compress_timeGraph : List Cell
  compress_ngGraph : List Cell
  split_timeGraph : List Cell
  split_ngGraph : List Cell
  cut_tot_cut_value : List Cell
  cut_TOT_gen_cut : List Cell
  cut_tot_time_opt : List Cell
  cut_max_time_opt : List Cell
  cumulative_time : List Cell
  deriving DecidableEq

/-- The empty `pd.DataFrame()` returned when `lblp_lower` is absent or
empty. -/
def emptyTable : IterTable :=
  ⟨[], [], [], [], [], [], [], [], [], [], [], [], [], [], [], [], [], []⟩

/-- Column for one core parallel array (lines 91-96): the source array
itself when present with the exact row count, otherwise a column of
missing values. -/
def coreCol (n : Nat) (src : Option (List Cell)) : List Cell :=
  match src with
  | some xs => if xs.length = n then xs else List.replicate n none
  | none => List.replicate n none

/-- Dict lookup with missing default, the effect of
`item.get(key, np.nan)` followed by the pandas None-to-NaN coercion. -/
def flatCell : Option Cell → Cell
  | none => none
  | some c => c

/-- The `timeGraph` entry of a stage element. -/
def stageTimeGraph : StageItem → Cell
  | .dict t _ => flatCell t
  | .nondict => none

/-- The `ngGraph` entry of a stage element. -/
def stageNgGraph : StageItem → Cell
  | .dict _ g => flatCell g
  | .nondict => none

/-- The `timeGraph` column derived from one problem-size stage (lines
102-128): per-element extraction when the stage is a list of the exact
row count, else an all-missing column. -/
def stageTimeCol (n : Nat) (src : Option (List StageItem)) : List Cell :=
  match src with
  | some items =>
    if items.length = n then items.map stageTimeGraph
    else List.replicate n none
  | none => List.replicate n none

/-- The `ngGraph` column derived from one problem-size stage. -/
def stageNgCol (n : Nat) (src : Option (List StageItem)) : List Cell :=
  match src with
  | some items =>
    if items.length = n then items.map stageNgGraph
    else List.replicate n none
  | none => List.replicate n none

/-- One cut statistic column (lines 131-158). -/
def cutCol (n : Nat) (src : Option (List CutItem)) (f : CutItem → Cell) :
    List Cell :=
  match src with
  | some items =>
    if items.length = n then items.map f else List.replicate n none
  | none => List.replicate n none

/-- Projections of a cut info element, each modelling
`item.get(key, np.nan) if isinstance(item, dict) else np.nan`. -/
def cutTotCutValue : CutItem → Cell
  | .dict v _ _ _ => flatCell v
  | .nondict => none

/-- The `TOT_gen_cut` entry of a cut info element. -/
def cutTotGenCut : CutItem → Cell
  | .dict _ v _ _ => flatCell v
  | .nondict => none

/-- The `tot_time_opt` entry of a cut info element. -/
def cutTotTimeOpt : CutItem → Cell
  | .dict _ _ v _ => flatCell v
  | .nondict => none

/-- The `max_time_opt` entry of a cut info element. -/
def cutMaxTimeOpt : CutItem → Cell
  | .dict _ _ _ v => flatCell v
  | .nondict => none

/-- Numeric value of a cell after `fillna(0)`: missing becomes zero and
booleans participate in sums as 0 or 1, as in pandas. -/
def fillQ : Cell → ℚ
  | none => 0
  | some (.num q) => q
  | some (.bool b) => if b then 1 else 0

/-- Running prefix sums, the effect of `.cumsum()`. -/
def prefixSums (l : List ℚ) : List ℚ :=
  (l.scanl (· + ·) 0).tail

/-- Model of `process_iteration_data` (lines 68-168).  The guard at
line 161 (`'lp_time_LB' in results_df.columns`) is always satisfied:
the loop at lines 91-96 creates all six core columns unconditionally,
so the all-missing fallback for `cumulative_time` at line 166 is
unreachable and `cumulative_time` is always the cumulative sum of the
two zero-filled LP time columns. -/
def process_iteration_data (data : RawRunDocument) : IterTable :=
  match data.lblp_lower with
  | none => emptyTable
  | some arr =>
    let n := arr.length
    if n = 0 then emptyTable
    else
      let colLB := coreCol n data.lp_time_LB
      let colPJ := coreCol n data.lp_time_project
      { iteration := List.range' 1 n
        lblp_lower := coreCol n data.lblp_lower
        ub_lp := coreCol n data.ub_lp
        did_compress := coreCol n data.did_compress
        lp_time_project := colPJ
        lp_time_LB := colLB
        time_compress := coreCol n data.time_compress
        start_timeGraph := stageTimeCol n data.prob_sizes_at_start
        start_ngGraph := stageNgCol n data.prob_sizes_at_start
        compress_timeGraph := stageTimeCol n data.prob_sizes_after_compress
        compress_ngGraph := stageNgCol n data.prob_sizes_after_compress
        split_timeGraph := stageTimeCol n data.prob_sizes_after_split
        split_ngGraph := stageNgCol n data.prob_sizes_after_split
        cut_tot_cut_value := cutCol n data.cuttingPlaneBendInfo cutTotCutValue
        cut_TOT_gen_cut := cutCol n data.cuttingPlaneBendInfo cutTotGenCut
        cut_tot_time_opt := cutCol n data.cuttingPlaneBendInfo cutTotTimeOpt
        cut_max_time_opt := cutCol n data.cuttingPlaneBendInfo cutMaxTimeOpt
        cumulative_time :=
          (prefixSums (List.zipWith (· + ·) (colLB.map fillQ) (colPJ.map fillQ))).map
            (fun q => some (JScalar.num q)) }

/-! ## Summary record construction (`load_ablation_data`, lines 236-274) -/

/-- One summand inside Python `sum(...)` over a run array: a missing
entry (None) has no `+` with numbers and raises `TypeError`, modelled
by `none`; booleans count as 0 or 1. -/
def pySumCell : Cell → Option ℚ
  | none => none
  | some (.num q) => some q
  | some (.bool b) => some (if b then 1 else 0)

/-- Python `sum` over a list of cells; any missing entry raises. -/
def pySumList : List Cell → Option ℚ
  | [] => some 0
  | c :: rest =>
    match pySumCell c, pySumList rest with
    | some q, some s => some (q + s)
    | _, _ => none

/-- The fixed dataset directory list (lines 183-189). -/
def datasets : List String :=
  ["C1_numCust_25", "C1_numCust_50", "C1_numCust_100",
   "C2_numCust_100",
   "R1_numCust_50", "R1_numCust_100",
   "RC1_numCust_25", "RC1_numCust_50", "RC1_numCust_100",
   "RC2_numCust_25", "RC2_numCust_50"]

/-- The fixed condition list (line 191). -/
def base_conditions : List String :=
  ["normal", "cuts_off_graphs_on", "cuts_off_graph_on", "no_ub_use_remove",
   "no_cuts_or_graphs"]

/-- The customer count inferred by substring matching (lines 239-244). -/
def num_cust_of (dataset : String) : Nat :=
  if containsL ("100".data) dataset.data then 100
  else if containsL ("50".data) dataset.data then 50
  else 25

/-- The instance type from `re.match(r'^([CR][12])', dataset)` (lines
246-248): the regex matches exactly when the first character is `C` or
`R` and the second is `1` or `2`, anchored at the start; on failure the
field is the string `Unknown`. -/
def instance_type_of (dataset : String) : String :=
  match dataset.data with
  | c1 :: c2 :: _ =>
    if (c1 = 'C' || c1 = 'R') && (c2 = '1' || c2 = '2') then ⟨[c1, c2]⟩
    else "Unknown"
  | _ => "Unknown"

/-- The `final_lb` expression of line 258: the last element of
`lblp_lower` when that value is truthy (present and non-empty), else
missing; a null last element yields a missing value. -/
def finalLbCode (d : RawRunDocument) : Cell :=
  match d.lblp_lower with
  | some (x :: xs) => flatCell ((x :: xs).getLast?)
  | _ => none

/-- One RunSummaryRecord (the dict literal of lines 251-268; the Python
key `instance` is a Lean keyword and is embedded as `instance_name`). -/
structure Record where
  dataset : String
  num_cust : Nat
  instance_type : String
  condition : String
  instance_name : String
  root_lp : Cell
  final_lb : Cell
  ilp_objective : Cell
  ilp_time : Cell
  total_lp_time : ℚ
  iterations : Nat
  total_cuts : ℚ
  iteration_data : IterTable
  deriving DecidableEq

/-- Model of the per-run record construction (lines 236-274): a raised
exception — only possible in the `total_lp_time` sums, whose arrays may
hold missing entries — is the `none` outcome and is caught by the
enclosing handler at line 276. -/
def buildRecord (dataset condition fname : String) (data : RawRunDocument) :
    Option Record :=
  let iteration_data := process_iteration_data data
  match pySumList (data.lp_time_LB.getD []),
      pySumList (data.lp_time_project.getD []) with
  | some s1, some s2 =>
    some
      { dataset := dataset
        num_cust := num_cust_of dataset
        instance_type := instance_type_of dataset
        condition := condition
        instance_name := extract_instance_name fname
        root_lp := flatCell data.ROOT_LP_PRIOR_ADDING_CUTS
        final_lb := finalLbCode data
        ilp_objective := flatCell data.OUR_ilp_objective
        ilp_time := flatCell data.OUR_ilp_time
        total_lp_time := s1 + s2
        iterations := (data.lblp_lower.getD []).length
        total_cuts :=
          if iteration_data.iteration.isEmpty then 0
          else (iteration_data.cut_TOT_gen_cut.map fillQ).sum
        iteration_data := iteration_data }
  | _, _ => none

/-! ## Corpus loading (error isolation, lines 217-278)

Directory traversal is abstracted to the sequence of run files the
nested loops visit; each visited file contributes the dict returned by
`read_one_file`, whose catch-all handler turns an unreadable file or a
parse failure into the empty dict (the default document). -/

/-- One visited run file: its dataset, condition, file name, and the
document `read_one_file` produced for it. -/
structure DirEntry where
  dataset : String
  condition : String
  fname : String
  read : RawRunDocument

/-- The per-file body of the loader loop: a falsy document (empty dict,
from a read or parse failure or a genuinely empty file) is skipped at
line 232, and a record construction error is caught at line 276 and
also skipped. -/
def processEntry (e : DirEntry) : Option Record :=
  if e.read.truthy then buildRecord e.dataset e.condition e.fname e.read
  else none

/-- Model of `load_ablation_data` over the visited file sequence: the
catalog collects exactly the successfully processed runs, in order. -/
def load_ablation_data (entries : List DirEntry) : List Record :=
  entries.filterMap processEntry

/-- Name filter of `glob("*.json")` within a `jy_*` directory. -/
def isJsonName (n : String) : Bool :=
  endsWithL (".json".data) n.data

/-- Name filter of `glob("*.txt")` within a `jy_*` directory. -/
def isTxtName (n : String) : Bool :=
  endsWithL (".txt".data) n.data

/-- File chosen inside a `jy_*` directory (lines 222-228): the two glob
results over the same directory listing are concatenated, json first,
and the first element is read; no file means the entry is skipped. -/
def selectRunFile (names : List String) : Option String :=
  (names.filter isJsonName ++ names.filter isTxtName).head?

/-! ## Specification-side definitions

These re-state amended claim wordings independently of the code path,
for refinement-style comparison. -/

/-- Amended specification wording for the per-row contribution of one
LP time array to `cumulative_time`: a present array of the exact row
count contributes its entries with missing as zero, and an absent or
length-mismatched array contributes zero at every row. -/
def specStep (n : Nat) (src : Option (List Cell)) : List ℚ :=
  match src with
  | some xs => if xs.length = n then xs.map fillQ else List.replicate n 0
  | none => List.replicate n 0

/-- Specification wording of claim C7: the last non-missing entry of
the lower bound sequence, or missing when there is none. -/
def specLastNonMissing (xs : List Cell) : Cell :=
  flatCell ((xs.filter (fun c => c.isSome)).getLast?)

/-- Amended specification wording for `final_lb`: the last entry of
`lblp_lower` (missing when that entry is null), or missing when the
array is empty or absent. -/
def specFinalLb (o : Option (List Cell)) : Cell :=
  flatCell ((o.getD []).getLast?)

/-- Claim C4 wording for one core column of a table with `n` rows: the
column is the source array itself, present with exactly `n` entries, or
it is missing for all `n` rows. -/
def colOk (n : Nat) (src : Option (List Cell)) (col : List Cell) : Prop :=
  (src = some col ∧ col.length = n) ∨ col = List.replicate n none

/-! ## Concrete fixtures used by witnesses and counterexamples -/

/-- Run document whose `lp_time_LB` array contains a null entry, as
produced by a `NaN` in the raw text. -/
def dC3x : RawRunDocument :=
  { lblp_lower := some [some (.num 10)], lp_time_LB := some [none] }

/-- Run document with numeric LP time arrays. -/
def dC3 : RawRunDocument :=
  { lblp_lower := some [some (.num 10)], lp_time_LB := some [some (.num 2)],
    lp_time_project := some [] }

/-- Lower bound array of length three. -/
def arrC4 : List Cell := [some (.num 10), some (.num 12), some (.num 15)]

/-- Run document with `lblp_lower` of length 3 and `ub_lp` of length 2,
the length-mismatch fixture named by the specification. -/
def dC4 : RawRunDocument :=
  { lblp_lower := some arrC4, ub_lp := some [some (.num 1), some (.num 2)] }

/-- Run document with `lp_time_LB` absent and `lp_time_project`
present. -/
def dC5x : RawRunDocument :=
  { lblp_lower := some [some (.num 1)], lp_time_project := some [some (.num 2)] }

/-- Lower bound array of length two. -/
def arrC5 : List Cell := [some (.num 10), some (.num 12)]

/-- Run document realizing the cumulative-time example of the
specification: `lp_time_LB = [1.0, 2.0]`, `lp_time_project =
[0.5, null]`. -/
def dC5 : RawRunDocument :=
  { lblp_lower := some arrC5,
    lp_time_LB := some [some (.num 1), some (.num 2)],
    lp_time_project := some [some (.num (1 / 2)), none] }

/-- Nonempty run document without a `lblp_lower` key. -/
def dC6x : RawRunDocument := { lp_time_LB := some [] }

/-- Run document whose last lower bound entry is null. -/
def dC7x : RawRunDocument := { lblp_lower := some [some (.num 10), none] }

/-- Run document realizing the `final_lb` example of the
specification. -/
def dC7 : RawRunDocument :=
  { lblp_lower := some [some (.num 10), some (.num 12), some (.num 15)] }

/-- Well-formed run document for loader fixtures. -/
def dGoodDoc : RawRunDocument := { lblp_lower := some [some (.num 10)] }

/-- Loader entry for a readable, parseable run file. -/
def entGood : DirEntry := ⟨"RC1_numCust_25", "normal", "jy_rc101.txt", dGoodDoc⟩

/-- Loader entry for an unreadable or unparseable file, for which
`read_one_file` returned the empty dict. -/
def entBad : DirEntry := ⟨"RC1_numCust_25", "normal", "jy_rc102.txt", {}⟩

/-! # Helper lemmas -/

/-- Every core column satisfies the all-or-nothing column contract. -/
theorem coreCol_colOk (n : Nat) (src : Option (List Cell)) :
    colOk n src (coreCol n src) := by
  cases src with
  | none => exact Or.inr rfl
  | some xs =>
    by_cases h : xs.length = n
    · exact Or.inl ⟨by simp [coreCol, h], by simp [coreCol, h]⟩
    · exact Or.inr (by simp [coreCol, h])

/-- Zero-filling a core column agrees with the specification wording of
the per-row contribution. -/
theorem map_fillQ_coreCol (n : Nat) (src : Option (List Cell)) :
    (coreCol n src).map fillQ = specStep n src := by
  cases src with
  | none => simp [coreCol, specStep, fillQ]
  | some xs => by_cases h : xs.length = n <;> simp [coreCol, specStep, h, fillQ]

/-- Shape of the iteration table for a present, non-empty anchor
array. -/
theorem process_iteration_data_of_some (d : RawRunDocument) (arr : List Cell)
    (h : d.lblp_lower = some arr) (hne : arr.length ≠ 0) :
    process_iteration_data d =
      { iteration := List.range' 1 arr.length
        lblp_lower := coreCol arr.length d.lblp_lower
        ub_lp := coreCol arr.length d.ub_lp
        did_compress := coreCol arr.length d.did_compress
        lp_time_project := coreCol arr.length d.lp_time_project
        lp_time_LB := coreCol arr.length d.lp_time_LB
        time_compress := coreCol arr.length d.time_compress
        start_timeGraph := stageTimeCol arr.length d.prob_sizes_at_start
        start_ngGraph := stageNgCol arr.length d.prob_sizes_at_start
        compress_timeGraph := stageTimeCol arr.length d.prob_sizes_after_compress
        compress_ngGraph := stageNgCol arr.length d.prob_sizes_after_compress
        split_timeGraph := stageTimeCol arr.length d.prob_sizes_after_split
        split_ngGraph := stageNgCol arr.length d.prob_sizes_after_split
        cut_tot_cut_value := cutCol arr.length d.cuttingPlaneBendInfo cutTotCutValue
        cut_TOT_gen_cut := cutCol arr.length d.cuttingPlaneBendInfo cutTotGenCut
        cut_tot_time_opt := cutCol arr.length d.cuttingPlaneBendInfo cutTotTimeOpt
        cut_max_time_opt := cutCol arr.length d.cuttingPlaneBendInfo cutMaxTimeOpt
        cumulative_time :=
          (prefixSums (List.zipWith (· + ·)
            ((coreCol arr.length d.lp_time_LB).map fillQ)
            ((coreCol arr.length d.lp_time_project).map fillQ))).map
            (fun q => some (JScalar.num q)) } := by
  unfold process_iteration_data
  rw [h]
  simp [hne]

/-! # Claim theorems -/

/-- Claim C1: the claim states that every standalone occurrence of the
tokens `NaN`, `Infinity`, `-Infinity`, `Inf`, `-Inf` is resolved to
null and the parse succeeds.  The code violates this: the
`\bInfinity\b` pass runs before the `\b-Infinity\b` pass and rewrites
the suffix of `-Infinity`, leaving the invalid text `-null` (the
`\b-Infinity\b` and leading sign of `\b-?Inf\b` patterns can never
match after a non-word character, since no word boundary precedes the
`-`), so `parse_custom_json` raises on `[-Infinity]` and `[-Inf]`.
Positive tokens and substring-containing words behave as claimed. -/
theorem c1_negative_infinity_breaks_parse :
    pyFixTokens ("[-Infinity]".data) = ("[-null]".data) ∧
    parse_custom_json ("[-Infinity]".data) = none ∧
    pyFixTokens ("[-Inf]".data) = ("[-null]".data) ∧
    parse_custom_json ("[NaN]".data) = some (.arr [.null]) ∧
    parse_custom_json ("\x7b\"InfoValue\": 1\x7d".data) =
      some (.obj [("InfoValue".data, .num 1)]) :=
  ⟨by decide, by rfl, by decide, by rfl, by rfl⟩

/-- Claim C2: the claim states that `instance_type` equals the family
code for every dataset in the fixed list, including `RC1_*` and
`RC2_*`.  The regex `^([CR][12])` cannot match an `RC` prefix (its
second character must be a digit), so the six `RC*` datasets in the
list receive `Unknown` instead of `RC1`/`RC2`; the four `C*`/`R*`
family codes work as claimed. -/
theorem c2_instance_type_rc_unknown :
    "RC1_numCust_25" ∈ datasets ∧ "RC2_numCust_50" ∈ datasets ∧
    instance_type_of "RC1_numCust_25" = "Unknown" ∧
    instance_type_of "RC2_numCust_50" = "Unknown" ∧
    instance_type_of "C1_numCust_25" = "C1" ∧
    instance_type_of "R1_numCust_50" = "R1" ∧
    Option.map Record.instance_type
      (buildRecord "RC1_numCust_25" "normal" "jy_rc101.txt" dGoodDoc) =
      some "Unknown" :=
  ⟨by decide, by decide, by rfl, by rfl, by rfl, by rfl, by rfl⟩

/-- Claim C9: the instance name normalizer applies its rules in the
stated order; the four example normalizations hold. -/
theorem c9_extract_instance_name_examples :
    extract_instance_name "BACK_jy_rc108.txt" = "rc108_BACK" ∧
    extract_instance_name "jy_rc108_better.json" = "rc108_better" ∧
    extract_instance_name "jy_c101.txt" = "c101" ∧
    extract_instance_name "c101.txt" = "c101" :=
  ⟨by decide, by decide, by decide, by decide⟩

/-- Claim C10: whenever a directory listed for a `jy_*` entry contains
a file with the `.json` extension, the chosen file is the first json
match — the json glob results precede the txt glob results in the
concatenation — so a `.txt` file is read only when no `.json` file is
present, whatever the listing order. -/
theorem c10_json_precedence (names : List String) (j : String)
    (hj : j ∈ names) (hjson : isJsonName j = true) :
    selectRunFile names = (names.filter isJsonName).head? ∧
    (selectRunFile names).map isJsonName = some true := by
  have hmem : j ∈ names.filter isJsonName := List.mem_filter.mpr ⟨hj, hjson⟩
  have hne : names.filter isJsonName ≠ [] := List.ne_nil_of_mem hmem
  obtain ⟨a, as, hcons⟩ := List.exists_cons_of_ne_nil hne
  have hjs : isJsonName a = true := by
    have ha : a ∈ names.filter isJsonName := by
      rw [hcons]
      exact List.mem_cons_self a as
    exact (List.mem_filter.mp ha).2
  constructor
  · simp [selectRunFile, hcons]
  · simp [selectRunFile, hcons, hjs]

/-- Witness for C10 at a directory listing a txt file before a json
file. -/
theorem c10_witness :
    "jy_b.json" ∈ ["jy_a.txt", "jy_b.json"] ∧
    isJsonName "jy_b.json" = true ∧
    (selectRunFile ["jy_a.txt", "jy_b.json"] =
        ((["jy_a.txt", "jy_b.json"].filter isJsonName).head?) ∧
      (selectRunFile ["jy_a.txt", "jy_b.json"]).map isJsonName = some true) :=
  ⟨by decide, by decide,
    c10_json_precedence ["jy_a.txt", "jy_b.json"] "jy_b.json" (by decide) (by decide)⟩

/-- Claim C4: for a present non-empty anchor array of length N the
table has exactly N rows, each of the six core columns is either the
source array verbatim (present with length exactly N) or missing for
all N rows, and an absent or empty anchor array yields the empty
table. -/
theorem c4_all_or_nothing_columns (d : RawRunDocument) :
    ((d.lblp_lower = none ∨ d.lblp_lower = some []) →
      process_iteration_data d = emptyTable) ∧
    (∀ arr, d.lblp_lower = some arr → arr ≠ [] →
      (process_iteration_data d).iteration.length = arr.length ∧
      colOk arr.length d.lblp_lower (process_iteration_data d).lblp_lower ∧
      colOk arr.length d.ub_lp (process_iteration_data d).ub_lp ∧
      colOk arr.length d.did_compress (process_iteration_data d).did_compress ∧
      colOk arr.length d.lp_time_project (process_iteration_data d).lp_time_project ∧
      colOk arr.length d.lp_time_LB (process_iteration_data d).lp_time_LB ∧
      colOk arr.length d.time_compress (process_iteration_data d).time_compress) := by
  constructor
  · rintro (h | h) <;> simp [process_iteration_data, h, emptyTable]
  · intro arr harr hne
    have hlen : arr.length ≠ 0 := by simpa [List.length_eq_zero] using hne
    rw [process_iteration_data_of_some d arr harr hlen]
    exact ⟨by simp, coreCol_colOk _ _, coreCol_colOk _ _, coreCol_colOk _ _,
      coreCol_colOk _ _, coreCol_colOk _ _, coreCol_colOk _ _⟩

/-- Witness for C4 at the length-mismatch fixture of the
specification: three rows, and the `ub_lp` column of source length 2
is replaced wholesale by missing values. -/
theorem c4_witness :
    dC4.lblp_lower = some arrC4 ∧ arrC4 ≠ [] ∧
    ((process_iteration_data dC4).iteration.length = arrC4.length ∧
      colOk arrC4.length dC4.lblp_lower (process_iteration_data dC4).lblp_lower ∧
      colOk arrC4.length dC4.ub_lp (process_iteration_data dC4).ub_lp ∧
      colOk arrC4.length dC4.did_compress (process_iteration_data dC4).did_compress ∧
      colOk arrC4.length dC4.lp_time_project
        (process_iteration_data dC4).lp_time_project ∧
      colOk arrC4.length dC4.lp_time_LB (process_iteration_data dC4).lp_time_LB ∧
      colOk arrC4.length dC4.time_compress
        (process_iteration_data dC4).time_compress) ∧
    (process_iteration_data dC4).ub_lp = List.replicate 3 none :=
  ⟨rfl, by decide, (c4_all_or_nothing_columns dC4).2 arrC4 rfl (by decide), by decide⟩

/-- Counterexample to claim C5: with `lp_time_LB` absent from the
document, the claim requires `cumulative_time` to be entirely missing;
the code zero-fills the all-missing column instead and produces the
running sum of the other array. -/
theorem c5_counterexample :
    (process_iteration_data dC5x).cumulative_time = [some (JScalar.num 2)] ∧
    (process_iteration_data dC5x).cumulative_time ≠ [none] := by
  have h : (process_iteration_data dC5x).cumulative_time = [some (JScalar.num 2)] := by
    norm_num [dC5x, process_iteration_data, coreCol, prefixSums, fillQ,
      List.zipWith, List.scanl]
  refine ⟨h, ?_⟩
  rw [h]
  simp

/-- Claim C5 as amended: `cumulative_time` is always the running prefix
sum of `(lp_time_LB ?? 0) + (lp_time_project ?? 0)` over the rows,
where an absent or length-mismatched source array contributes zero at
every row; for a non-empty table every entry of the column is present,
never missing. -/
theorem c5_cumulative_always_computed (d : RawRunDocument) (arr : List Cell)
    (h : d.lblp_lower = some arr) (hne : arr ≠ []) :
    (process_iteration_data d).cumulative_time =
      (prefixSums (List.zipWith (· + ·)
        (specStep arr.length d.lp_time_LB)
        (specStep arr.length d.lp_time_project))).map
        (fun q => some (JScalar.num q)) ∧
    ((process_iteration_data d).cumulative_time).all Option.isSome = true := by
  have hlen : arr.length ≠ 0 := by simpa [List.length_eq_zero] using hne
  rw [process_iteration_data_of_some d arr h hlen]
  constructor
  · simp [map_fillQ_coreCol]
  · simp [List.all_map]

/-- Witness for C5 at the cumulative-time example of the claim:
`lp_time_LB = [1.0, 2.0]` and `lp_time_project = [0.5, null]` yield
`[1.5, 3.5]`. -/
theorem c5_witness :
    dC5.lblp_lower = some arrC5 ∧ arrC5 ≠ [] ∧
    ((process_iteration_data dC5).cumulative_time =
        (prefixSums (List.zipWith (· + ·)
          (specStep arrC5.length dC5.lp_time_LB)
          (specStep arrC5.length dC5.lp_time_project))).map
          (fun q => some (JScalar.num q)) ∧
      ((process_iteration_data dC5).cumulative_time).all Option.isSome = true) ∧
    (process_iteration_data dC5).cumulative_time =
      [some (JScalar.num (3 / 2)), some (JScalar.num (7 / 2))] :=
  ⟨rfl, by decide, c5_cumulative_always_computed dC5 arrC5 rfl (by decide),
    by norm_num [dC5, arrC5, process_iteration_data, coreCol, prefixSums, fillQ,
      List.zipWith, List.scanl]⟩

/-- Claim C8: a per-file failure — a file whose read or parse failed
(empty dict) or whose record construction raised — contributes nothing
to the catalog, and the remaining files are processed exactly as if
the failing file were absent; the load itself is a total function and
cannot raise. -/
theorem c8_per_file_failure_isolated (pre post : List DirEntry) (bad : DirEntry)
    (hbad : processEntry bad = none) :
    load_ablation_data (pre ++ bad :: post) =
      load_ablation_data pre ++ load_ablation_data post := by
  simp [load_ablation_data, List.filterMap_append, List.filterMap_cons_none hbad]

/-- Witness for C8: one well-formed run and one unreadable file yield a
catalog with exactly one record. -/
theorem c8_witness :
    processEntry entBad = none ∧
    (load_ablation_data ([entGood] ++ entBad :: []) =
      load_ablation_data [entGood] ++ load_ablation_data []) ∧
    (load_ablation_data [entGood, entBad]).length = 1 :=
  ⟨by decide, c8_per_file_failure_isolated [entGood] [] entBad (by decide), by decide⟩

/-- Fields of a successfully built record, in terms of the source
document. -/
theorem buildRecord_fields (ds cond fn : String) (d : RawRunDocument) (r : Record)
    (hr : buildRecord ds cond fn d = some r) :
    r.iterations = (d.lblp_lower.getD []).length ∧
    r.final_lb = finalLbCode d ∧
    r.iteration_data = process_iteration_data d := by
  unfold buildRecord at hr
  rcases hs1 : pySumList (d.lp_time_LB.getD []) with _ | s1
  · rw [hs1] at hr
    exact absurd hr (by simp)
  rcases hs2 : pySumList (d.lp_time_project.getD []) with _ | s2
  · rw [hs1, hs2] at hr
    exact absurd hr (by simp)
  rw [hs1, hs2] at hr
  cases Option.some.inj hr
  exact ⟨rfl, rfl, rfl⟩

/-- An absent or empty anchor array yields the empty table. -/
theorem process_iteration_data_empty (d : RawRunDocument)
    (h : d.lblp_lower = none ∨ d.lblp_lower = some []) :
    process_iteration_data d = emptyTable := by
  rcases h with h | h <;> simp [process_iteration_data, h, emptyTable]

/-- The line 258 expression agrees with the last-entry reading. -/
theorem finalLbCode_eq_spec (d : RawRunDocument) :
    finalLbCode d = specFinalLb d.lblp_lower := by
  unfold finalLbCode specFinalLb
  cases hl : d.lblp_lower with
  | none => rfl
  | some l =>
    cases l with
    | nil => rfl
    | cons x xs => rfl

/-- Counterexample to claim C3: extraction of the scalar summary raises
on a document whose `lp_time_LB` holds a null entry — Python `sum` has
no `+` for `None` — so the record construction fails instead of
degrading to a missing value, and the loader drops the run. -/
theorem c3_counterexample :
    buildRecord "RC1_numCust_25" "normal" "jy_rc101.txt" dC3x = none ∧
    processEntry ⟨"RC1_numCust_25", "normal", "jy_rc101.txt", dC3x⟩ = none :=
  ⟨by decide, by decide⟩

/-- Claim C3 as amended: the iteration table construction is total, and
whenever both LP time sums evaluate without error — in particular when
the arrays hold only numbers or booleans, or are absent — the record is
produced and `total_lp_time` is the sum of the two array sums; a null
entry in either array instead raises, which the loader catches as a
per-run skip. -/
theorem c3_total_lp_time_eq_sum (ds cond fn : String) (d : RawRunDocument)
    (a b : ℚ)
    (h1 : pySumList (d.lp_time_LB.getD []) = some a)
    (h2 : pySumList (d.lp_time_project.getD []) = some b) :
    Option.map Record.total_lp_time (buildRecord ds cond fn d) = some (a + b) := by
  unfold buildRecord
  rw [h1, h2]
  rfl

/-- Witness for C3 at numeric LP time arrays summing to 2 and 0. -/
theorem c3_witness :
    pySumList (dC3.lp_time_LB.getD []) = some 2 ∧
    pySumList (dC3.lp_time_project.getD []) = some 0 ∧
    Option.map Record.total_lp_time
      (buildRecord "RC1_numCust_25" "normal" "jy_rc101.txt" dC3) = some (2 + 0) :=
  ⟨by simp [dC3, pySumList, pySumCell], by simp [dC3, pySumList],
    c3_total_lp_time_eq_sum "RC1_numCust_25" "normal" "jy_rc101.txt" dC3 2 0
      (by simp [dC3, pySumList, pySumCell]) (by simp [dC3, pySumList])⟩

/-- Counterexample to claim C6: a nonempty document lacking
`lblp_lower` yields the empty iteration table, but the run is not
skipped — the catalog still receives one record for it. -/
theorem c6_counterexample :
    process_iteration_data dC6x = emptyTable ∧
    dC6x.lblp_lower = none ∧ dC6x.truthy = true ∧
    (load_ablation_data
      [⟨"RC1_numCust_25", "normal", "jy_rc101.txt", dC6x⟩]).length = 1 :=
  ⟨by decide, rfl, rfl, by decide⟩

/-- Claim C6 as amended: an absent or empty `lblp_lower` yields the
empty iteration table, but the run is not skipped: whenever the
document is truthy and record construction does not raise, a record
with zero iterations and an empty embedded table is appended to the
catalog. -/
theorem c6_empty_anchor_still_appends (ds cond fn : String) (d : RawRunDocument)
    (h : d.lblp_lower = none ∨ d.lblp_lower = some [])
    (ht : d.truthy = true)
    (hs : (buildRecord ds cond fn d).isSome = true) :
    process_iteration_data d = emptyTable ∧
    (load_ablation_data [⟨ds, cond, fn, d⟩]).length = 1 ∧
    Option.map Record.iterations (buildRecord ds cond fn d) = some 0 ∧
    Option.map Record.iteration_data (buildRecord ds cond fn d) =
      some emptyTable := by
  obtain ⟨r, hr⟩ := Option.isSome_iff_exists.mp hs
  obtain ⟨hit, hfl, htab⟩ := buildRecord_fields ds cond fn d r hr
  have hempty : process_iteration_data d = emptyTable :=
    process_iteration_data_empty d h
  refine ⟨hempty, ?_, ?_, ?_⟩
  · simp [load_ablation_data, processEntry, ht, hr]
  · rw [hr]
    have hz : (d.lblp_lower.getD []).length = 0 := by
      rcases h with h | h <;> simp [h]
    simp [hit, hz]
  · rw [hr]
    simp [htab, hempty]

/-- Witness for C6 at a nonempty document without `lblp_lower`. -/
theorem c6_witness :
    (dC6x.lblp_lower = none ∨ dC6x.lblp_lower = some []) ∧
    dC6x.truthy = true ∧
    (buildRecord "RC1_numCust_25" "normal" "jy_rc101.txt" dC6x).isSome = true ∧
    (process_iteration_data dC6x = emptyTable ∧
      (load_ablation_data
        [⟨"RC1_numCust_25", "normal", "jy_rc101.txt", dC6x⟩]).length = 1 ∧
      Option.map Record.iterations
        (buildRecord "RC1_numCust_25" "normal" "jy_rc101.txt" dC6x) = some 0 ∧
      Option.map Record.iteration_data
        (buildRecord "RC1_numCust_25" "normal" "jy_rc101.txt" dC6x) =
        some emptyTable) :=
  ⟨Or.inl rfl, rfl, by decide,
    c6_empty_anchor_still_appends "RC1_numCust_25" "normal" "jy_rc101.txt" dC6x
      (Or.inl rfl) rfl (by decide)⟩

/-- Counterexample to claim C7: for `lblp_lower = [10.0, null]` the
last non-missing entry is 10, but the code takes the last entry
verbatim, so the record's `final_lb` is missing. -/
theorem c7_counterexample :
    specLastNonMissing [some (JScalar.num 10), none] = some (JScalar.num 10) ∧
    Option.map Record.final_lb
      (buildRecord "C1_numCust_25" "normal" "jy_c101.txt" dC7x) = some none ∧
    finalLbCode dC7x = none :=
  ⟨by decide, by decide, by decide⟩

/-- Claim C7 as amended: `final_lb` equals the last entry of
`lblp_lower` — missing when that entry is null — and is missing when
the array is empty or absent; the two examples of the claim hold. -/
theorem c7_final_lb_is_last_entry (ds cond fn : String) (d : RawRunDocument)
    (hs : (buildRecord ds cond fn d).isSome = true) :
    Option.map Record.final_lb (buildRecord ds cond fn d) =
      some (specFinalLb d.lblp_lower) ∧
    specFinalLb (some [some (JScalar.num 10), some (JScalar.num 12),
      some (JScalar.num 15)]) = some (JScalar.num 15) ∧
    specFinalLb (some []) = none := by
  obtain ⟨r, hr⟩ := Option.isSome_iff_exists.mp hs
  refine ⟨?_, by decide, by decide⟩
  rw [hr]
  have hfl := (buildRecord_fields ds cond fn d r hr).2.1
  simp [hfl, finalLbCode_eq_spec]

/-- Witness for C7 at the `final_lb` example of the claim. -/
theorem c7_witness :
    (buildRecord "C1_numCust_25" "normal" "jy_c101.txt" dC7).isSome = true ∧
    (Option.map Record.final_lb
        (buildRecord "C1_numCust_25" "normal" "jy_c101.txt" dC7) =
        some (specFinalLb dC7.lblp_lower) ∧
      specFinalLb (some [some (JScalar.num 10), some (JScalar.num 12),
        some (JScalar.num 15)]) = some (JScalar.num 15) ∧
      specFinalLb (some []) = none) ∧
    Option.map Record.final_lb
      (buildRecord "C1_numCust_25" "normal" "jy_c101.txt" dC7) =
      some (some (JScalar.num 15)) :=
  ⟨by decide,
    c7_final_lb_is_last_entry "C1_numCust_25" "normal" "jy_c101.txt" dC7
      (by decide),
    by decide⟩

end Abl
